import Mathlib

/-!
Shallow embedding of the QuickNews backend engagement core: the like /
comment / follow controllers (engagementController), the mongoose schemas
they rely on (likeModel, commentModel, followModel, userModel) and the
socket-event helpers (utils/socketEvents.js).  Ids are modelled as `Nat`
(Mongo ObjectIds are opaque unique ids; `toString` renders them into
channel names).  Each controller is a function from a request plus a
database state to a result, a new database state and the list of
socket broadcasts it emitted.
-/

namespace QuickNews

/-- A row of the Like collection (likeModel.js): (user, content, contentType),
with a unique index on (user, content). `lid` is the document `_id`. -/
structure Like where
  lid : Nat
  user : Nat
  content : Nat
  contentType : String
deriving DecidableEq, Repr

/-- A row of the Comment collection (commentModel.js). `cid` is `_id`. -/
structure Comment where
  cid : Nat
  user : Nat
  content : Nat
  contentType : String
  text : String
  parentComment : Option Nat
  likesCount : Int
  repliesCount : Int
  isEdited : Bool
  active : Bool
deriving DecidableEq, Repr

/-- A row of the Follow collection (followModel.js), unique index on
(follower, following). `fid` is `_id`. -/
structure Follow where
  fid : Nat
  follower : Nat
  following : Nat
  status : String
deriving DecidableEq, Repr

/-- The slice of a User document the engagement core touches:
`_id` and the denormalized `stats.followers` / `stats.following`. -/
structure UserDoc where
  uid : Nat
  followers : Int
  following : Int
deriving DecidableEq, Repr

/-- The database state: the collections the engagement controllers read and
write. `nextId` models Mongo's generation of fresh `_id`s. -/
structure DB where
  videos : List Nat
  articles : List Nat
  comments : List Comment
  likes : List Like
  follows : List Follow
  users : List UserDoc
  nextId : Nat
deriving DecidableEq, Repr

/-- `createError(status, message)` from utils/errorMessage.js: an HTTP-style
status paired with a message, forwarded to the express error handler. -/
structure ApiErr where
  status : Nat
  message : String
deriving DecidableEq, Repr

/-- The outcome a controller hands to express: either `res.status(n).json(...)`
or `next(createError(status, message))`. -/
inductive Res where
  | ok (status : Nat) (message : String)
  | err (e : ApiErr)
deriving DecidableEq, Repr

/-- One `io.emit(eventName, {type: ..., ...})` broadcast. -/
structure Emit where
  eventName : String
  eventType : String
deriving DecidableEq, Repr

/-- Result of running one controller: response, new database state, and the
broadcasts emitted (in order). -/
structure StepOut where
  res : Res
  db : DB
  emits : List Emit
deriving DecidableEq, Repr

def createError (status : Nat) (message : String) : ApiErr :=
  { status := status, message := message }

/-- `Video.exists({_id: i})`. -/
def videoExists (db : DB) (i : Nat) : Bool :=
  db.videos.contains i

/-- `Article.exists({_id: i})`. -/
def articleExists (db : DB) (i : Nat) : Bool :=
  db.articles.contains i

/-- `Comment.findById(i)`. -/
def commentFind (db : DB) (i : Nat) : Option Comment :=
  db.comments.find? (fun c => c.cid == i)

/-- `Comment.exists({_id: i})`. -/
def commentExists (db : DB) (i : Nat) : Bool :=
  (commentFind db i).isSome

/-- `User.exists({_id: i})`. -/
def userExists (db : DB) (i : Nat) : Bool :=
  db.users.any (fun u => u.uid == i)

/-- The content-existence check shared by toggleLike: Video, Article and
Comment are consulted; any other contentType leaves the flag false. -/
def contentExistsFor (db : DB) (contentType : String) (contentId : Nat) : Bool :=
  if contentType == "Video" then videoExists db contentId
  else if contentType == "Article" then articleExists db contentId
  else if contentType == "Comment" then commentExists db contentId
  else false

/-- `Like.create(...)` under likeModel's unique index on (user, content):
inserting a duplicate throws a duplicate-key error. -/
def likeCreate (db : DB) (user content : Nat) (contentType : String) :
    Except String DB :=
  if db.likes.any (fun l => l.user == user && l.content == content) then
    Except.error "E11000 duplicate key error"
  else
    Except.ok { db with
      likes := db.likes ++ [{ lid := db.nextId, user := user,
                              content := content, contentType := contentType }],
      nextId := db.nextId + 1 }

/-- toggleLike (engagementController), with the database transition `mid`
standing for interference by concurrent requests between the
`Like.findOne` read and the write (the spec's non-atomic
read-check-then-write).  A thrown storage error lands in the catch-all,
which forwards `createError(500, error.message)`. -/
def toggleLikeR (mid : DB → DB) (userId contentId : Nat) (contentType : String)
    (db : DB) : StepOut :=
  if !(contentExistsFor db contentType contentId) then
    { res := .err (createError 404 (contentType ++ " not found")),
      db := db, emits := [] }
  else
    match db.likes.find? (fun l =>
        l.user == userId && l.content == contentId &&
        l.contentType == contentType) with
    | some l =>
        let db1 := mid db
        let db2 := { db1 with likes := db1.likes.filter (fun x => x.lid != l.lid) }
        { res := .ok 200 "Like removed successfully", db := db2,
          emits := [{ eventName := s!"like:{contentId}", eventType := "unlike" }] }
    | none =>
        let db1 := mid db
        match likeCreate db1 userId contentId contentType with
        | Except.error m =>
            { res := .err (createError 500 m), db := db1, emits := [] }
        | Except.ok db2 =>
            { res := .ok 201 "", db := db2,
              emits := [{ eventName := s!"like:{contentId}", eventType := "like" }] }

/-- toggleLike with no concurrent interference (sequential execution). -/
def toggleLike (userId contentId : Nat) (contentType : String) (db : DB) :
    StepOut :=
  toggleLikeR id userId contentId contentType db

/-- JavaScript `String.prototype.trim` (the mongoose `trim: true` setter):
strip leading and trailing whitespace. -/
def jsTrim (s : String) : String :=
  ⟨((s.data.dropWhile Char.isWhitespace).reverse.dropWhile
      Char.isWhitespace).reverse⟩

/-- The contentType enum of commentModel.js. -/
def commentEnum : List String := ["Video", "Article"]

/-- Validation commentModel's schema runs on create/save: contentType enum,
`text` required after trim, maxlength 1000. Returns the stored (trimmed)
text, or the schema's error message. -/
def commentValidate (contentType : String) (text : String) :
    Except String String :=
  if !(commentEnum.contains contentType) then
    Except.error (contentType ++ " is not a valid enum value for path contentType")
  else
    let t := jsTrim text
    if t == "" then Except.error "Comment text is required"
    else if t.length > 1000 then
      Except.error "Comment cannot be longer than 1000 characters"
    else Except.ok t

/-- `Comment.create(...)`: run schema validation, then insert a fresh row with
the schema defaults (likesCount 0, repliesCount 0, isEdited false, active
true). -/
def commentCreate (db : DB) (user content : Nat) (contentType text : String)
    (parentComment : Option Nat) : Except String (Comment × DB) :=
  match commentValidate contentType text with
  | Except.error m => Except.error m
  | Except.ok t =>
      let c : Comment :=
        { cid := db.nextId, user := user, content := content,
          contentType := contentType, text := t, parentComment := parentComment,
          likesCount := 0, repliesCount := 0, isEdited := false, active := true }
      Except.ok (c, { db with comments := db.comments ++ [c],
                              nextId := db.nextId + 1 })

/-- `Comment.findByIdAndUpdate(i, {$inc: {repliesCount: d}})`. -/
def bumpReplies (db : DB) (i : Nat) (d : Int) : DB :=
  { db with comments := db.comments.map (fun c =>
      if c.cid == i then { c with repliesCount := c.repliesCount + d } else c) }

/-- The write phase of createComment: `Comment.create`, then increment the
parent's repliesCount when this is a reply, then broadcast. -/
def createCommentWrite (userId contentId : Nat) (contentType text : String)
    (parentComment : Option Nat) (db : DB) : StepOut :=
  match commentCreate db userId contentId contentType text parentComment with
  | Except.error m =>
      { res := .err (createError 500 m), db := db, emits := [] }
  | Except.ok (_, db1) =>
      let db2 := match parentComment with
                 | some p => bumpReplies db1 p 1
                 | none => db1
      { res := .ok 201 "", db := db2,
        emits := [{ eventName := s!"comment:{contentId}", eventType := "new" }] }

/-- createComment (engagementController): existence check handles only Video
and Article; optional parent-comment existence check; then create. -/
def createComment (userId contentId : Nat) (contentType text : String)
    (parentComment : Option Nat) (db : DB) : StepOut :=
  let ce := if contentType == "Video" then videoExists db contentId
            else if contentType == "Article" then articleExists db contentId
            else false
  if !ce then
    { res := .err (createError 404 (contentType ++ " not found")),
      db := db, emits := [] }
  else
    match parentComment with
    | some p =>
        if !(commentExists db p) then
          { res := .err (createError 404 "Parent comment not found"),
            db := db, emits := [] }
        else
          createCommentWrite userId contentId contentType text parentComment db
    | none =>
        createCommentWrite userId contentId contentType text parentComment db

/-- updateComment (engagementController): author-only, sets text and
isEdited=true (save re-runs the schema validation), broadcasts on
`comment:{comment.content}`. -/
def updateComment (commentId userId : Nat) (text : String) (db : DB) : StepOut :=
  match commentFind db commentId with
  | none =>
      { res := .err (createError 404 "Comment not found"), db := db, emits := [] }
  | some c =>
      if c.user != userId then
        { res := .err (createError 403 "Not authorized to update this comment"),
          db := db, emits := [] }
      else
        match commentValidate c.contentType text with
        | Except.error m =>
            { res := .err (createError 500 m), db := db, emits := [] }
        | Except.ok t =>
            let c2 := { c with text := t, isEdited := true }
            { res := .ok 200 "",
              db := { db with comments := db.comments.map (fun x =>
                        if x.cid == commentId then c2 else x) },
              emits := [{ eventName := s!"comment:{c.content}",
                          eventType := "update" }] }

/-- deleteComment (engagementController): author-only; decrements the parent's
repliesCount when the comment is a reply; then `comment.deleteOne()` removes
the row; broadcasts on `comment:{comment.content}`. -/
def deleteComment (commentId userId : Nat) (db : DB) : StepOut :=
  match commentFind db commentId with
  | none =>
      { res := .err (createError 404 "Comment not found"), db := db, emits := [] }
  | some c =>
      if c.user != userId then
        { res := .err (createError 403 "Not authorized to delete this comment"),
          db := db, emits := [] }
      else
        let db1 := match c.parentComment with
                   | some p => bumpReplies db p (-1)
                   | none => db
        { res := .ok 200 "Comment deleted successfully",
          db := { db1 with comments := db1.comments.filter (fun x =>
                    x.cid != commentId) },
          emits := [{ eventName := s!"comment:{c.content}",
                      eventType := "delete" }] }

/-- `User.updateOne({_id: i}, {$inc: {'stats.followers': d}})`. -/
def bumpFollowers (db : DB) (i : Nat) (d : Int) : DB :=
  { db with users := db.users.map (fun u =>
      if u.uid == i then { u with followers := u.followers + d } else u) }

/-- `User.updateOne({_id: i}, {$inc: {'stats.following': d}})`. -/
def bumpFollowing (db : DB) (i : Nat) (d : Int) : DB :=
  { db with users := db.users.map (fun u =>
      if u.uid == i then { u with following := u.following + d } else u) }

/-- `Follow.create(...)` under followModel's pre-save hook (rejects
follower == following) and unique index on (follower, following). -/
def followCreate (db : DB) (follower target : Nat) : Except String DB :=
  if follower == target then
    Except.error "Users cannot follow themselves"
  else if db.follows.any (fun f =>
      f.follower == follower && f.following == target) then
    Except.error "E11000 duplicate key error"
  else
    Except.ok { db with
      follows := db.follows ++ [{ fid := db.nextId, follower := follower,
                                  following := target, status := "active" }],
      nextId := db.nextId + 1 }

/-- toggleFollow (engagementController): self-follow guard, target existence
check, then toggle the Follow row and bump both denormalized counters as two
independent writes. -/
def toggleFollow (userId targetUserId : Nat) (db : DB) : StepOut :=
  if targetUserId == userId then
    { res := .err (createError 400 "Users cannot follow themselves"),
      db := db, emits := [] }
  else if !(userExists db targetUserId) then
    { res := .err (createError 404 "Target user not found"),
      db := db, emits := [] }
  else
    match db.follows.find? (fun f =>
        f.follower == userId && f.following == targetUserId) with
    | some f =>
        let db1 := { db with follows := db.follows.filter (fun x =>
                       x.fid != f.fid) }
        let db2 := bumpFollowing (bumpFollowers db1 targetUserId (-1)) userId (-1)
        { res := .ok 200 "Unfollowed successfully", db := db2,
          emits := [{ eventName := s!"follow:{targetUserId}",
                      eventType := "unfollow" }] }
    | none =>
        match followCreate db userId targetUserId with
        | Except.error m =>
            { res := .err (createError 500 m), db := db, emits := [] }
        | Except.ok db1 =>
            let db2 := bumpFollowing (bumpFollowers db1 targetUserId 1) userId 1
            { res := .ok 201 "", db := db2,
              emits := [{ eventName := s!"follow:{targetUserId}",
                          eventType := "follow" }] }

/-- `getContentRoomId` from utils/socketEvents.js. -/
def getContentRoomId (contentType : String) (contentId : Nat) : String :=
  s!"{contentType}:{contentId}"

/-- `getUserRoomId` from utils/socketEvents.js. -/
def getUserRoomId (userId : Nat) : String :=
  s!"user:{userId}"

/-- A Like row for (user, content) exists — the "liked" state. -/
def likePresent (db : DB) (u c : Nat) : Bool :=
  db.likes.any (fun l => l.user == u && l.content == c)

/-- The denormalized `stats.followers` of user `i`, when the user exists. -/
def followersOf (db : DB) (i : Nat) : Option Int :=
  (db.users.find? (fun u => u.uid == i)).map (fun u => u.followers)

/-- The denormalized `stats.following` of user `i`, when the user exists. -/
def followingOf (db : DB) (i : Nat) : Option Int :=
  (db.users.find? (fun u => u.uid == i)).map (fun u => u.following)

/-- The `repliesCount` of comment `i`, when it exists. -/
def repliesOf (db : DB) (i : Nat) : Option Int :=
  (commentFind db i).map (fun c => c.repliesCount)

/-- No Follow row relates a user to itself. -/
def noSelfFollow (db : DB) : Prop :=
  ∀ f ∈ db.follows, f.follower ≠ f.following

/-- A Like row for (user, content) with this contentType exists (the row the
toggleLike `findOne` matches). -/
def likeRowT (db : DB) (u c : Nat) (t : String) : Bool :=
  db.likes.any (fun l => l.user == u && l.content == c && l.contentType == t)

/-- Storage well-formedness of the Like collection: document ids stay below
the id generator, and the unique index on (user, content) holds. -/
def LikesWF (db : DB) : Prop :=
  (∀ l ∈ db.likes, l.lid < db.nextId) ∧
  (∀ l1 ∈ db.likes, ∀ l2 ∈ db.likes,
     l1.user = l2.user → l1.content = l2.content → l1 = l2)

/-- Storage well-formedness of the Comment collection: document ids stay
below the id generator. -/
def CommentsWF (db : DB) : Prop :=
  ∀ c ∈ db.comments, c.cid < db.nextId

/-- Storage well-formedness of the Follow collection: document ids stay
below the id generator. -/
def FollowsWF (db : DB) : Prop :=
  ∀ f ∈ db.follows, f.fid < db.nextId

/-- n sequential applications of toggleLike by the same user on the same
content (no concurrency). -/
def iterToggleLike (u c : Nat) (t : String) : Nat → DB → DB
  | 0, db => db
  | n + 1, db => iterToggleLike u c t n (toggleLike u c t db).db

/-- k sequential createComment calls posting replies to parent `p` on video
`v`, the reply whose fresh id is `n` authored by user `a n`. -/
def mkReplies (a : Nat → Nat) (v p : Nat) : Nat → DB → DB
  | 0, db => db
  | k + 1, db =>
      mkReplies a v p k (createComment (a db.nextId) v "Video" "hi" (some p) db).db

/-- Sequential deleteComment calls on the comments with the given ids, each
issued by that comment's author `a i`. -/
def delReplies (a : Nat → Nat) : List Nat → DB → DB
  | [], db => db
  | i :: rest, db => delReplies a rest (deleteComment i (a i) db).db

/-- Interference by a concurrent toggle that inserts the Like row for (u, c)
between toggleLike's read and its write. -/
def insertLikeMid (u c : Nat) (t : String) : DB → DB := fun d =>
  { d with likes := d.likes ++ [{ lid := d.nextId, user := u, content := c,
                                  contentType := t }],
           nextId := d.nextId + 1 }

/-- Invariant holding after an even number of sequential toggles from the
clean state: store well-formed, content still exists, like absent. -/
def GoodOff (u c : Nat) (t : String) (db : DB) : Prop :=
  LikesWF db ∧ contentExistsFor db t c = true ∧ likePresent db u c = false

/-- Invariant holding after an odd number of sequential toggles from the
clean state: store well-formed, content still exists, the (u, c) like row
present with this contentType. -/
def GoodOn (u c : Nat) (t : String) (db : DB) : Prop :=
  LikesWF db ∧ contentExistsFor db t c = true ∧ likeRowT db u c t = true

/-- Sample state: one video (id 1) and two users (ids 7 and 8) with zeroed
stats. -/
def db0 : DB :=
  { videos := [1], articles := [], comments := [], likes := [], follows := [],
    users := [{ uid := 7, followers := 0, following := 0 },
              { uid := 8, followers := 0, following := 0 }],
    nextId := 10 }

/-- Sample state: db0 plus a comment (id 2, by user 7, on video 1). -/
def dbC : DB :=
  { db0 with
    comments := [{ cid := 2, user := 7, content := 1, contentType := "Video",
                   text := "hello", parentComment := none, likesCount := 0,
                   repliesCount := 0, isEdited := false, active := true }] }

/-- Sample state: db0 plus a Like row (user 7 on video 1). -/
def dbL : DB :=
  { db0 with likes := [{ lid := 3, user := 7, content := 1,
                         contentType := "Video" }] }

/-- The comment row Comment.create builds for a reply "hi" by user `u` on
video `v` with parent `p`, when the generated id is `n`. -/
def newReply (u v p n : Nat) : Comment :=
  { cid := n, user := u, content := v, contentType := "Video", text := "hi",
    parentComment := some p, likesCount := 0, repliesCount := 0,
    isEdited := false, active := true }

end QuickNews

namespace QuickNews

/-! ### General list lemmas used throughout -/

lemma find?_map_of_pred {α : Type} (f : α → α) (p : α → Bool)
    (hf : ∀ x, p (f x) = p x) (l : List α) :
    (l.map f).find? p = (l.find? p).map f := by
  induction l with
  | nil => rfl
  | cons a l ih =>
      cases h : p a with
      | true =>
          rw [List.map_cons, List.find?_cons_of_pos _ ((hf a).trans h),
            List.find?_cons_of_pos _ h, Option.map_some']
      | false =>
          rw [List.map_cons, List.find?_cons_of_neg _ (by simp [hf a, h]),
            List.find?_cons_of_neg _ (by simp [h]), ih]

lemma find?_filter_keep {α : Type} (p q : α → Bool) (l : List α)
    (h : ∀ x, p x = true → q x = true) :
    (l.filter q).find? p = l.find? p := by
  induction l with
  | nil => rfl
  | cons a l ih =>
      cases hq : q a with
      | true =>
          cases hp : p a with
          | true =>
              rw [List.filter_cons_of_pos hq, List.find?_cons_of_pos _ hp,
                List.find?_cons_of_pos _ hp]
          | false =>
              rw [List.filter_cons_of_pos hq, List.find?_cons_of_neg _ (by simp [hp]),
                List.find?_cons_of_neg _ (by simp [hp]), ih]
      | false =>
          have hp : p a = false := by
            cases hpa : p a with
            | true => rw [h a hpa] at hq; cases hq
            | false => rfl
          rw [List.filter_cons_of_neg (by simp [hq]),
            List.find?_cons_of_neg _ (by simp [hp]), ih]

lemma find?_filter_none {α : Type} (p q : α → Bool) (l : List α)
    (h : ∀ x, p x = true → q x = false) :
    (l.filter q).find? p = none := by
  rw [List.find?_eq_none]
  intro x hx hp
  have hm := List.mem_filter.mp hx
  rw [h x hp] at hm
  cases hm.2

end QuickNews

namespace QuickNews

/-! ### C9 and C10: unrecognized contentType paths -/

lemma contentExistsFor_unknown (db : DB) (c : Nat) (t : String)
    (h1 : t ≠ "Video") (h2 : t ≠ "Article") (h3 : t ≠ "Comment") :
    contentExistsFor db t c = false := by
  simp [contentExistsFor, h1, h2, h3]

/-- C9: toggleLike with a contentType outside {Video, Article, Comment} fails
with 404 "&lt;contentType&gt; not found" (the existence flag stays false), the
database is untouched (no Like row created or deleted) and nothing is
broadcast. -/
theorem c9_unknown_contentType_not_found (db : DB) (u c : Nat) (t : String)
    (h1 : t ≠ "Video") (h2 : t ≠ "Article") (h3 : t ≠ "Comment") :
    (toggleLike u c t db).res = .err (createError 404 (t ++ " not found")) ∧
    (toggleLike u c t db).db = db ∧ (toggleLike u c t db).emits = [] := by
  have h := contentExistsFor_unknown db c t h1 h2 h3
  refine ⟨?_, ?_, ?_⟩ <;> simp [toggleLike, toggleLikeR, h]

/-- Witness for C9 at contentType "Playlist". -/
theorem c9_witness :
    (toggleLike 7 1 "Playlist" db0).res
        = .err (createError 404 ("Playlist" ++ " not found")) ∧
    (toggleLike 7 1 "Playlist" db0).db = db0 ∧
    (toggleLike 7 1 "Playlist" db0).emits = [] :=
  c9_unknown_contentType_not_found db0 7 1 "Playlist"
    (by decide) (by decide) (by decide)

/-- C10: createComment with contentType "Comment" always fails 404 "Comment
not found" (its existence check only handles Video and Article) and creates
no row; the comment schema's contentType enum rejects "Comment"; by
contrast, toggleLike on an existing comment with contentType "Comment"
never fails with a 404. -/
theorem c10_comment_on_comment_not_found (db : DB) (u c : Nat) (txt : String)
    (pc : Option Nat) :
    (createComment u c "Comment" txt pc db).res
        = .err (createError 404 ("Comment" ++ " not found")) ∧
    (createComment u c "Comment" txt pc db).db = db ∧
    (createComment u c "Comment" txt pc db).emits = [] ∧
    (∀ t2, commentValidate "Comment" t2 =
        Except.error ("Comment" ++ " is not a valid enum value for path contentType")) ∧
    (commentExists db c = true →
      ∀ m, (toggleLike u c "Comment" db).res ≠ .err (createError 404 m)) := by
  refine ⟨?_, ?_, ?_, ?_, ?_⟩
  · simp [createComment]
  · simp [createComment]
  · simp [createComment]
  · intro t2; simp [commentValidate, commentEnum]
  · intro hex m
    have hce : contentExistsFor db "Comment" c = true := by
      simp [contentExistsFor, hex]
    simp only [toggleLike, toggleLikeR, hce]
    split
    · simp_all
    · split
      · simp [createError]
      · split <;> simp [createError]

end QuickNews

namespace QuickNews

/-- Witness for C10 on the sample state: comment 2 exists, createComment on it
404s and toggleLike on it does not 404. -/
theorem c10_witness :
    (createComment 7 2 "Comment" "hi" none dbC).res
        = .err (createError 404 ("Comment" ++ " not found")) ∧
    (toggleLike 7 2 "Comment" dbC).res ≠ .err (createError 404 "Comment not found") :=
  ⟨(c10_comment_on_comment_not_found dbC 7 2 "hi" none).1,
   (c10_comment_on_comment_not_found dbC 7 2 "hi" none).2.2.2.2
     (by decide) "Comment not found"⟩

/-! ### C8: self-follow rejection -/

lemma followCreate_noSelfFollow (db : DB) (u t : Nat) (h : noSelfFollow db)
    (hut : u ≠ t) (db1 : DB) (hok : followCreate db u t = Except.ok db1) :
    noSelfFollow db1 := by
  simp only [followCreate] at hok
  split at hok
  · cases hok
  · split at hok
    · cases hok
    · cases hok
      intro f hf
      rcases List.mem_append.mp hf with hl | hr
      · exact h f hl
      · simp only [List.mem_singleton] at hr
        subst hr
        simpa using hut

lemma toggleFollow_noSelfFollow (u t : Nat) (db : DB) (h : noSelfFollow db) :
    noSelfFollow (toggleFollow u t db).db := by
  simp only [toggleFollow]
  split
  · exact h
  next hte =>
    split
    · exact h
    next hue =>
      split
      next f hfind =>
        intro g hg
        exact h g (List.mem_filter.mp hg).1
      next hfind =>
        split
        next m herr => exact h
        next db1 hok =>
          have hut : u ≠ t := fun he => hte (by rw [he]; simp)
          exact followCreate_noSelfFollow db u t h hut db1 hok

lemma toggleLike_follows (u c : Nat) (ct : String) (db : DB) :
    (toggleLike u c ct db).db.follows = db.follows := by
  simp only [toggleLike, toggleLikeR]
  split
  · rfl
  · split
    · rfl
    · split
      · rfl
      next db2 hok =>
        simp only [likeCreate] at hok
        split at hok
        · cases hok
        · cases hok; rfl

lemma createCommentWrite_follows (u c : Nat) (ct txt : String)
    (pc : Option Nat) (db : DB) :
    (createCommentWrite u c ct txt pc db).db.follows = db.follows := by
  simp only [createCommentWrite]
  split
  · rfl
  next pr hok =>
    simp only [commentCreate] at hok
    split at hok
    · cases hok
    · cases hok
      split <;> rfl

lemma createComment_follows (u c : Nat) (ct txt : String) (pc : Option Nat)
    (db : DB) :
    (createComment u c ct txt pc db).db.follows = db.follows := by
  simp only [createComment]
  repeat' split
  all_goals first
    | rfl
    | exact createCommentWrite_follows ..

lemma updateComment_follows (i u : Nat) (txt : String) (db : DB) :
    (updateComment i u txt db).db.follows = db.follows := by
  simp only [updateComment]
  split
  · rfl
  · split
    · rfl
    · split <;> rfl

lemma deleteComment_follows (i u : Nat) (db : DB) :
    (deleteComment i u db).db.follows = db.follows := by
  simp only [deleteComment]
  repeat' split
  all_goals rfl

/-- C8: toggleFollow(U, U) always fails with the self-follow error
(createError 400 "Users cannot follow themselves" — the spec's
InvalidOperation kind, surfaced as HTTP 400) leaving the database untouched;
the followModel pre-save hook rejects any self-follow at write time; every
engagement operation preserves the no-self-follow invariant (toggleFollow is
the only code path that writes Follow rows — the others leave the Follow
collection unchanged). -/
theorem c8_self_follow_rejected (db : DB) (U : Nat) :
    (toggleFollow U U db).res = .err (createError 400 "Users cannot follow themselves") ∧
    (toggleFollow U U db).db = db ∧
    (∀ u, followCreate db u u = Except.error "Users cannot follow themselves") ∧
    (∀ u t, noSelfFollow db → noSelfFollow (toggleFollow u t db).db) ∧
    (∀ u c ct, (toggleLike u c ct db).db.follows = db.follows) ∧
    (∀ u c ct txt pc, (createComment u c ct txt pc db).db.follows = db.follows) ∧
    (∀ i u txt, (updateComment i u txt db).db.follows = db.follows) ∧
    (∀ i u, (deleteComment i u db).db.follows = db.follows) := by
  refine ⟨?_, ?_, ?_, ?_, ?_, ?_, ?_, ?_⟩
  · simp [toggleFollow]
  · simp [toggleFollow]
  · intro u; simp [followCreate]
  · intro u t h; exact toggleFollow_noSelfFollow u t db h
  · intro u c ct; exact toggleLike_follows u c ct db
  · intro u c ct txt pc; exact createComment_follows u c ct txt pc db
  · intro i u txt; exact updateComment_follows i u txt db
  · intro i u; exact deleteComment_follows i u db

/-- Witness for C8 on the sample state. -/
theorem c8_witness :
    (toggleFollow 7 7 db0).res
        = .err (createError 400 "Users cannot follow themselves") ∧
    noSelfFollow (toggleFollow 7 8 db0).db :=
  ⟨(c8_self_follow_rejected db0 7).1,
   (c8_self_follow_rejected db0 7).2.2.2.1 7 8 (by intro f hf; cases hf)⟩

end QuickNews

namespace QuickNews

/-! ### C1: broadcast channel names actually used by the controllers -/

lemma toggleLikeR_emits (mid : DB → DB) (u c : Nat) (ct : String) (db : DB) :
    ∀ e ∈ (toggleLikeR mid u c ct db).emits, e.eventName = s!"like:{c}" := by
  simp only [toggleLikeR]
  repeat' split
  all_goals intro e he
  all_goals simp only [List.mem_singleton, List.not_mem_nil] at he
  all_goals subst he
  all_goals rfl

lemma createCommentWrite_emits (u c : Nat) (ct txt : String) (pc : Option Nat)
    (db : DB) :
    ∀ e ∈ (createCommentWrite u c ct txt pc db).emits,
      e.eventName = s!"comment:{c}" := by
  simp only [createCommentWrite]
  repeat' split
  all_goals intro e he
  all_goals simp only [List.mem_singleton, List.not_mem_nil] at he
  all_goals subst he
  all_goals rfl

lemma createComment_emits (u c : Nat) (ct txt : String) (pc : Option Nat)
    (db : DB) :
    ∀ e ∈ (createComment u c ct txt pc db).emits,
      e.eventName = s!"comment:{c}" := by
  simp only [createComment]
  repeat' split
  all_goals first
    | apply createCommentWrite_emits
    | (intro e he; exact absurd he (List.not_mem_nil e))

lemma updateComment_emits (i u : Nat) (txt : String) (db : DB) :
    ∀ e ∈ (updateComment i u txt db).emits,
      ∃ c0, commentFind db i = some c0 ∧ e.eventName = s!"comment:{c0.content}" := by
  simp only [updateComment]
  split
  · intro e he; simp only [List.not_mem_nil] at he
  next c0 hfind =>
    split
    · intro e he; simp only [List.not_mem_nil] at he
    · split
      · intro e he; simp only [List.not_mem_nil] at he
      · intro e he
        simp only [List.mem_singleton] at he
        subst he
        exact ⟨c0, hfind, rfl⟩

lemma deleteComment_emits (i u : Nat) (db : DB) :
    ∀ e ∈ (deleteComment i u db).emits,
      ∃ c0, commentFind db i = some c0 ∧ e.eventName = s!"comment:{c0.content}" := by
  simp only [deleteComment]
  split
  · intro e he; simp only [List.not_mem_nil] at he
  next c0 hfind =>
    split
    · intro e he; simp only [List.not_mem_nil] at he
    · intro e he
      simp only [List.mem_singleton] at he
      subst he
      exact ⟨c0, hfind, rfl⟩

lemma toggleFollow_emits (u tgt : Nat) (db : DB) :
    ∀ e ∈ (toggleFollow u tgt db).emits, e.eventName = s!"follow:{tgt}" := by
  simp only [toggleFollow]
  repeat' split
  all_goals intro e he
  all_goals simp only [List.mem_singleton, List.not_mem_nil] at he
  all_goals subst he
  all_goals rfl

/-- C1 (amended): every broadcast an engagement mutation emits uses the event
name "like:{contentId}" (toggleLike), "comment:{contentId}" (createComment),
"comment:{comment.content}" (updateComment / deleteComment) or
"follow:{targetUserId}" (toggleFollow), emitted globally via io.emit; the
socketEvents helpers getContentRoomId / getUserRoomId do compute
"{contentType}:{contentId}" and "user:{userId}" deterministically, but the
engagement mutations do not use those channel names. -/
theorem c1_event_names (db : DB) (u c i tgt x : Nat) (ct txt : String)
    (pc : Option Nat) :
    (∀ e ∈ (toggleLike u c ct db).emits, e.eventName = s!"like:{c}") ∧
    (∀ e ∈ (createComment u c ct txt pc db).emits, e.eventName = s!"comment:{c}") ∧
    (∀ e ∈ (updateComment i u txt db).emits,
       ∃ c0, commentFind db i = some c0 ∧ e.eventName = s!"comment:{c0.content}") ∧
    (∀ e ∈ (deleteComment i u db).emits,
       ∃ c0, commentFind db i = some c0 ∧ e.eventName = s!"comment:{c0.content}") ∧
    (∀ e ∈ (toggleFollow u tgt db).emits, e.eventName = s!"follow:{tgt}") ∧
    getContentRoomId ct x = s!"{ct}:{x}" ∧
    getUserRoomId x = s!"user:{x}" :=
  ⟨toggleLikeR_emits id u c ct db, createComment_emits u c ct txt pc db,
   updateComment_emits i u txt db, deleteComment_emits i u db,
   toggleFollow_emits u tgt db, rfl, rfl⟩

/-- Counterexample to C1 as stated: a like on Video 1 is broadcast with event
name "like:1", not on the channel "Video:1" that getContentRoomId computes;
a follow of user 8 is broadcast as "follow:8", not on "user:8". -/
theorem c1_counterexample :
    (toggleLike 7 1 "Video" dbL).emits
        = [{ eventName := "like:1", eventType := "unlike" }] ∧
    "like:1" ≠ getContentRoomId "Video" 1 ∧
    (toggleFollow 7 8 db0).emits
        = [{ eventName := "follow:8", eventType := "follow" }] ∧
    "follow:8" ≠ getUserRoomId 8 := by decide

/-- Witness for C1 (amended) on the sample state. -/
theorem c1_witness :
    (Emit.mk "like:1" "unlike").eventName = s!"like:{(1 : Nat)}" :=
  (c1_event_names dbL 7 1 0 0 0 "Video" "x" none).1
    { eventName := "like:1", eventType := "unlike" } (by decide)

end QuickNews

namespace QuickNews

/-! ### C2: deleteComment removes the row (hard delete) -/

lemma bumpReplies_fields (db : DB) (p : Nat) (d : Int) (x : Comment)
    (hx : x ∈ db.comments) :
    ∃ x', x' ∈ (bumpReplies db p d).comments ∧ x'.cid = x.cid ∧
      x'.user = x.user ∧ x'.parentComment = x.parentComment ∧
      x'.text = x.text ∧ x'.active = x.active := by
  refine ⟨if x.cid == p then { x with repliesCount := x.repliesCount + d } else x,
    List.mem_map_of_mem _ hx, ?_, ?_, ?_, ?_, ?_⟩ <;>
    by_cases h : (x.cid == p) = true <;> simp [h]

/-- C2 (amended): deleteComment by the comment's author succeeds and
hard-deletes the comment row — `comment.deleteOne()` removes it from the
store, it does not survive with active=false — while every other comment
(in particular every child comment of the deleted one) survives with its
cid, user, parentComment, text and active flag unchanged. -/
theorem c2_deleteComment_hard_deletes (db : DB) (i u : Nat) (c : Comment)
    (hfind : commentFind db i = some c) (hu : c.user = u) :
    (deleteComment i u db).res = .ok 200 "Comment deleted successfully" ∧
    commentFind (deleteComment i u db).db i = none ∧
    (∀ d ∈ db.comments, d.cid ≠ i →
      ∃ d', d' ∈ (deleteComment i u db).db.comments ∧ d'.cid = d.cid ∧
        d'.user = d.user ∧ d'.parentComment = d.parentComment ∧
        d'.text = d.text ∧ d'.active = d.active) := by
  have hne : (c.user != u) = false := by simp [hu]
  refine ⟨?_, ?_, ?_⟩
  · simp [deleteComment, hfind, hne]
  · simp only [deleteComment, hfind, hne, Bool.false_eq_true, if_false]
    exact find?_filter_none _ _ _ (fun x hx => by
      simp only [bne] at *
      simp only [beq_iff_eq] at hx
      simp [hx])
  · intro d hd hdne
    simp only [deleteComment, hfind, hne, Bool.false_eq_true, if_false]
    rcases hpc : c.parentComment with _ | p
    · refine ⟨d, ?_, rfl, rfl, rfl, rfl, rfl⟩
      simp only [hpc]
      exact List.mem_filter.mpr ⟨hd, by simp [hdne]⟩
    · obtain ⟨d', hmem, hcid, huser, hpar, htext, hact⟩ :=
        bumpReplies_fields db p (-1) d hd
      refine ⟨d', ?_, hcid, huser, hpar, htext, hact⟩
      simp only [hpc]
      exact List.mem_filter.mpr ⟨hmem, by simp [hcid, hdne]⟩

/-- Counterexample to C2 as stated: after a successful deleteComment the
comment row is gone from the store entirely — it does not remain with
active=false. -/
theorem c2_counterexample :
    (deleteComment 2 7 dbC).res = .ok 200 "Comment deleted successfully" ∧
    dbC.comments.any (fun x => x.cid == 2) = true ∧
    (deleteComment 2 7 dbC).db.comments.any (fun x => x.cid == 2) = false := by
  decide

/-- Witness for C2 (amended) on the sample state. -/
theorem c2_witness :
    (deleteComment 2 7 dbC).res = .ok 200 "Comment deleted successfully" ∧
    commentFind (deleteComment 2 7 dbC).db 2 = none :=
  ⟨(c2_deleteComment_hard_deletes dbC 2 7
      { cid := 2, user := 7, content := 1, contentType := "Video",
        text := "hello", parentComment := none, likesCount := 0,
        repliesCount := 0, isEdited := false, active := true }
      (by decide) rfl).1,
   (c2_deleteComment_hard_deletes dbC 2 7
      { cid := 2, user := 7, content := 1, contentType := "Video",
        text := "hello", parentComment := none, likesCount := 0,
        repliesCount := 0, isEdited := false, active := true }
      (by decide) rfl).2.1⟩

end QuickNews

namespace QuickNews

/-! ### C4: bad comment text is rejected, but surfaced as 500 -/

lemma commentValidate_bad (txt : String)
    (hbad : jsTrim txt = "" ∨ 1000 < (jsTrim txt).length) :
    ∃ m, commentValidate "Video" txt = Except.error m := by
  rcases hbad with h | h
  · exact ⟨"Comment text is required", by simp [commentValidate, commentEnum, h]⟩
  · refine ⟨"Comment cannot be longer than 1000 characters", ?_⟩
    have hne : (jsTrim txt == "") = false := by
      rw [beq_eq_false_iff_ne]
      intro he
      rw [he] at h
      simp at h
    simp [commentValidate, commentEnum, hne, h]

lemma createCommentWrite_validate_error (u v : Nat) (ct txt : String)
    (pc : Option Nat) (db : DB) (m : String)
    (hm : commentValidate ct txt = Except.error m) :
    createCommentWrite u v ct txt pc db
      = { res := .err (createError 500 m), db := db, emits := [] } := by
  simp [createCommentWrite, commentCreate, hm]

/-- C4 (amended): createComment on an existing video (with an existing parent
when one is supplied) whose text is empty/whitespace-only after trimming, or
longer than 1000 characters after trimming, is rejected by the mongoose
schema and creates no comment row — but the controller's catch-all surfaces
the mongoose validation error as createError(500, message) (Internal), not
as a 400-style ValidationError. -/
theorem c4_bad_text_rejected_500 (db : DB) (u v : Nat) (txt : String)
    (pc : Option Nat) (hv : videoExists db v = true)
    (hp : ∀ p, pc = some p → commentExists db p = true)
    (hbad : jsTrim txt = "" ∨ 1000 < (jsTrim txt).length) :
    (∃ m, (createComment u v "Video" txt pc db).res = .err (createError 500 m)) ∧
    (createComment u v "Video" txt pc db).db = db ∧
    (createComment u v "Video" txt pc db).emits = [] := by
  obtain ⟨m, hm⟩ := commentValidate_bad txt hbad
  have hw := createCommentWrite_validate_error u v "Video" txt pc db m hm
  have hrun : createComment u v "Video" txt pc db
      = { res := .err (createError 500 m), db := db, emits := [] } := by
    cases pc with
    | none => simp [createComment, hv, hw]
    | some p =>
        have hpe := hp p rfl
        simp [createComment, hv, hpe, hw]
  exact ⟨⟨m, by rw [hrun]⟩, by rw [hrun], by rw [hrun]⟩

/-- Counterexample to C4 as stated: whitespace-only text is rejected with a
500 Internal error (the wrapped mongoose message), not a 400-style
ValidationError. -/
theorem c4_counterexample :
    (createComment 7 1 "Video" "   " none db0).res
        = .err (createError 500 "Comment text is required") ∧
    (createComment 7 1 "Video" "   " none db0).res
        ≠ .err (createError 400 "Comment text is required") := by
  decide

/-- Witness for C4 (amended) on the sample state. -/
theorem c4_witness :
    (∃ m, (createComment 7 1 "Video" " " none db0).res
        = .err (createError 500 m)) ∧
    (createComment 7 1 "Video" " " none db0).db = db0 ∧
    (createComment 7 1 "Video" " " none db0).emits = [] :=
  c4_bad_text_rejected_500 db0 7 1 " " none (by decide)
    (fun p hp => by cases hp) (Or.inl (by decide))

/-! ### C3: duplicate-key on racy insert propagates as 500 -/

/-- C3 (amended): when a concurrent toggle inserts the Like row for (u, c)
between toggleLike's findOne and its Like.create, the storage duplicate-key
error is caught by the controller's catch-all and propagated to the caller
as createError(500, "E11000 duplicate key error") — the code does not fall
back to idempotent "already existed" behavior; the unique index does keep
the store at exactly one Like row for (u, c). -/
theorem c3_duplicate_key_propagates (db : DB) (u c : Nat) (t : String)
    (hex : contentExistsFor db t c = true) (h0 : likePresent db u c = false) :
    (toggleLikeR (insertLikeMid u c t) u c t db).res
        = .err (createError 500 "E11000 duplicate key error") ∧
    (toggleLikeR (insertLikeMid u c t) u c t db).db = insertLikeMid u c t db ∧
    (toggleLikeR (insertLikeMid u c t) u c t db).db.likes.countP
        (fun l => l.user == u && l.content == c) = 1 := by
  have hnone : ∀ x ∈ db.likes, ¬(x.user == u && x.content == c) = true := by
    rw [← List.any_eq_false]
    exact h0
  have hfind : db.likes.find?
      (fun l => l.user == u && l.content == c && l.contentType == t) = none := by
    rw [List.find?_eq_none]
    intro x hx hpx
    simp only [Bool.and_eq_true] at hpx
    exact hnone x hx (by simp [hpx.1.1, hpx.1.2])
  have hdup : ((insertLikeMid u c t db).likes.any
      (fun l => l.user == u && l.content == c)) = true := by
    simp [insertLikeMid, List.any_append]
  have hcr : likeCreate (insertLikeMid u c t db) u c t
      = Except.error "E11000 duplicate key error" := by
    simp [likeCreate, hdup]
  refine ⟨?_, ?_, ?_⟩
  · simp [toggleLikeR, hex, hfind, hcr]
  · simp [toggleLikeR, hex, hfind, hcr]
  · have hdb : (toggleLikeR (insertLikeMid u c t) u c t db).db
        = insertLikeMid u c t db := by
      simp [toggleLikeR, hex, hfind, hcr]
    rw [hdb]
    have h00 : db.likes.countP (fun l => l.user == u && l.content == c) = 0 :=
      List.countP_eq_zero.mpr hnone
    simp [insertLikeMid, List.countP_append, h00]

/-- Counterexample to C3 as stated: with the interfering insert, the caller
receives the propagated conflict error (500, duplicate key), not an
idempotent success. -/
theorem c3_counterexample :
    (toggleLikeR (insertLikeMid 7 1 "Video") 7 1 "Video" db0).res
        = .err (createError 500 "E11000 duplicate key error") := by
  decide

/-- Witness for C3 (amended) on the sample state. -/
theorem c3_witness :
    (toggleLikeR (insertLikeMid 7 1 "Video") 7 1 "Video" db0).res
        = .err (createError 500 "E11000 duplicate key error") ∧
    (toggleLikeR (insertLikeMid 7 1 "Video") 7 1 "Video" db0).db
        = insertLikeMid 7 1 "Video" db0 ∧
    (toggleLikeR (insertLikeMid 7 1 "Video") 7 1 "Video" db0).db.likes.countP
        (fun l => l.user == 7 && l.content == 1) = 1 :=
  c3_duplicate_key_propagates db0 7 1 "Video" (by decide) (by decide)

end QuickNews

namespace QuickNews

/-! ### C5: sequential toggle parity -/

lemma likeRowT_imp_present (db : DB) (u c : Nat) (t : String)
    (h : likeRowT db u c t = true) : likePresent db u c = true := by
  simp only [likeRowT, List.any_eq_true] at h
  obtain ⟨x, hx, hpx⟩ := h
  simp only [Bool.and_eq_true] at hpx
  simp only [likePresent, List.any_eq_true]
  exact ⟨x, hx, by simp [hpx.1.1, hpx.1.2]⟩

lemma toggleLike_off_on (u c : Nat) (t : String) (db : DB)
    (h : GoodOff u c t db) : GoodOn u c t (toggleLike u c t db).db := by
  obtain ⟨hwf, hex, h0⟩ := h
  have h0' : db.likes.any (fun l => l.user == u && l.content == c) = false := h0
  have hnone : ∀ x ∈ db.likes, ¬(x.user == u && x.content == c) = true := by
    rw [← List.any_eq_false]
    exact h0'
  have hfind : db.likes.find?
      (fun l => l.user == u && l.content == c && l.contentType == t) = none := by
    rw [List.find?_eq_none]
    intro x hx hpx
    simp only [Bool.and_eq_true] at hpx
    exact hnone x hx (by simp [hpx.1.1, hpx.1.2])
  have hcr : likeCreate db u c t = Except.ok { db with
      likes := db.likes ++ [{ lid := db.nextId, user := u, content := c,
                              contentType := t }],
      nextId := db.nextId + 1 } := by
    simp [likeCreate, h0']
  have hdb : (toggleLike u c t db).db = { db with
      likes := db.likes ++ [{ lid := db.nextId, user := u, content := c,
                              contentType := t }],
      nextId := db.nextId + 1 } := by
    simp [toggleLike, toggleLikeR, hex, hfind, hcr]
  rw [hdb]
  refine ⟨⟨?_, ?_⟩, hex, ?_⟩
  · intro l hl
    rcases List.mem_append.mp hl with h1 | h2
    · exact Nat.lt_succ_of_lt (hwf.1 l h1)
    · simp only [List.mem_singleton] at h2
      subst h2
      exact Nat.lt_succ_self _
  · intro l1 h1 l2 h2 hu hc
    rcases List.mem_append.mp h1 with h1a | h1b <;>
      rcases List.mem_append.mp h2 with h2a | h2b
    · exact hwf.2 l1 h1a l2 h2a hu hc
    · exfalso
      simp only [List.mem_singleton] at h2b
      subst h2b
      exact hnone l1 h1a (by simp_all)
    · exfalso
      simp only [List.mem_singleton] at h1b
      subst h1b
      exact hnone l2 h2a (by simp_all)
    · simp only [List.mem_singleton] at h1b h2b
      rw [h1b, h2b]
  · simp [likeRowT, List.any_append]

lemma toggleLike_on_off (u c : Nat) (t : String) (db : DB)
    (h : GoodOn u c t db) : GoodOff u c t (toggleLike u c t db).db := by
  obtain ⟨hwf, hex, hrow⟩ := h
  have hrow' : db.likes.any
      (fun l => l.user == u && l.content == c && l.contentType == t) = true := hrow
  have hsome : (db.likes.find?
      (fun l => l.user == u && l.content == c && l.contentType == t)).isSome := by
    rw [List.find?_isSome]
    rw [List.any_eq_true] at hrow'
    exact hrow'
  obtain ⟨l, hfind⟩ := Option.isSome_iff_exists.mp hsome
  have hl_mem := List.mem_of_find?_eq_some hfind
  have hl_pred := List.find?_some hfind
  simp only [Bool.and_eq_true, beq_iff_eq] at hl_pred
  have hdb : (toggleLike u c t db).db
      = { db with likes := db.likes.filter (fun x => x.lid != l.lid) } := by
    simp [toggleLike, toggleLikeR, hex, hfind]
  rw [hdb]
  refine ⟨⟨?_, ?_⟩, hex, ?_⟩
  · intro x hx
    exact hwf.1 x (List.mem_filter.mp hx).1
  · intro x1 h1 x2 h2 hux hcx
    exact hwf.2 x1 (List.mem_filter.mp h1).1 x2 (List.mem_filter.mp h2).1 hux hcx
  · simp only [likePresent]
    rw [List.any_eq_false]
    intro x hx hpx
    have hmf := List.mem_filter.mp hx
    simp only [Bool.and_eq_true, beq_iff_eq] at hpx
    have hxl : x = l :=
      hwf.2 x hmf.1 l hl_mem (hpx.1.trans hl_pred.1.1.symm)
        (hpx.2.trans hl_pred.1.2.symm)
    rw [hxl] at hmf
    simp at hmf

lemma iterToggleLike_parity (u c : Nat) (t : String) :
    ∀ n, ∀ db : DB,
      (GoodOff u c t db →
        (if n % 2 = 0 then GoodOff u c t (iterToggleLike u c t n db)
         else GoodOn u c t (iterToggleLike u c t n db))) ∧
      (GoodOn u c t db →
        (if n % 2 = 0 then GoodOn u c t (iterToggleLike u c t n db)
         else GoodOff u c t (iterToggleLike u c t n db))) := by
  intro n
  induction n with
  | zero =>
      intro db
      constructor
      · intro h
        simpa [iterToggleLike] using h
      · intro h
        simpa [iterToggleLike] using h
  | succ n ih =>
      intro db
      have hstep : iterToggleLike u c t (n + 1) db
          = iterToggleLike u c t n (toggleLike u c t db).db := rfl
      constructor
      · intro h
        have h2 := (ih (toggleLike u c t db).db).2 (toggleLike_off_on u c t db h)
        rw [hstep]
        rcases Nat.mod_two_eq_zero_or_one n with he | ho
        · have hs : (n + 1) % 2 = 1 := by omega
          rw [hs, if_neg (by omega)]
          rw [he, if_pos rfl] at h2
          exact h2
        · have hs : (n + 1) % 2 = 0 := by omega
          rw [hs, if_pos rfl]
          rw [ho, if_neg (by omega)] at h2
          exact h2
      · intro h
        have h2 := (ih (toggleLike u c t db).db).1 (toggleLike_on_off u c t db h)
        rw [hstep]
        rcases Nat.mod_two_eq_zero_or_one n with he | ho
        · have hs : (n + 1) % 2 = 1 := by omega
          rw [hs, if_neg (by omega)]
          rw [he, if_pos rfl] at h2
          exact h2
        · have hs : (n + 1) % 2 = 0 := by omega
          rw [hs, if_pos rfl]
          rw [ho, if_neg (by omega)] at h2
          exact h2

/-- C5 (amended): starting from the clean "not liked" state on existing
content, n sequential toggleLike applications by the same user leave the
Like row present exactly when n is odd — an even number of applications
returns to "not liked", an odd number leaves it "liked".  (As stated the
claim also quantified over starting states where the row is already
present; there two applications return to "present", see the
counterexample.) -/
theorem c5_toggle_parity (u c n : Nat) (t : String) (db : DB)
    (hwf : LikesWF db) (hex : contentExistsFor db t c = true)
    (h0 : likePresent db u c = false) :
    likePresent (iterToggleLike u c t n db) u c = decide (n % 2 = 1) := by
  have h := (iterToggleLike_parity u c t n db).1 ⟨hwf, hex, h0⟩
  rcases Nat.mod_two_eq_zero_or_one n with he | ho
  · rw [he] at h
    simp only [if_pos rfl] at h
    have hd : decide (n % 2 = 1) = false := by simp [he]
    rw [hd]
    exact h.2.2
  · rw [ho] at h
    simp only [one_ne_zero, if_false] at h
    have hd : decide (n % 2 = 1) = true := by simp [ho]
    rw [hd]
    exact likeRowT_imp_present _ u c t h.2.2

/-- Counterexample to C5 as stated: starting from a state where the like is
already present, one (odd) application leaves it absent and two applications
leave it present — the parity only holds from the "not liked" state. -/
theorem c5_counterexample :
    likePresent dbL 7 1 = true ∧
    likePresent (iterToggleLike 7 1 "Video" 2 dbL) 7 1 = true ∧
    likePresent (iterToggleLike 7 1 "Video" 1 dbL) 7 1 = false := by decide

/-- Witness for C5 (amended) at n = 3 on the sample state. -/
theorem c5_witness :
    likePresent (iterToggleLike 7 1 "Video" 3 db0) 7 1 = decide (3 % 2 = 1) :=
  c5_toggle_parity 7 1 3 "Video" db0
    ⟨fun l hl => absurd hl (List.not_mem_nil l),
     fun l1 h1 _ _ _ _ => absurd h1 (List.not_mem_nil l1)⟩
    (by decide) (by decide)

end QuickNews

namespace QuickNews

/-! ### C6: follow/unfollow round trip restores both counters -/

lemma followersOf_bumpFollowers (db : DB) (i : Nat) (d : Int) (q : Nat) :
    followersOf (bumpFollowers db i d) q
      = if q = i then (followersOf db q).map (fun n => n + d)
        else followersOf db q := by
  have hmap := find?_map_of_pred
    (fun u : UserDoc =>
      if u.uid == i then { u with followers := u.followers + d } else u)
    (fun x => x.uid == q)
    (fun x => by by_cases h : (x.uid == i) = true <;> simp [h]) db.users
  simp only [followersOf, bumpFollowers]
  rw [hmap]
  cases hfq : db.users.find? (fun x => x.uid == q) with
  | none => by_cases hqi : q = i <;> simp [hqi]
  | some u =>
      have huid : u.uid = q := by
        have := List.find?_some hfq
        simpa using this
      by_cases hqi : q = i
      · subst hqi
        simp [huid]
      · simp [huid, hqi]

lemma followingOf_bumpFollowing (db : DB) (i : Nat) (d : Int) (q : Nat) :
    followingOf (bumpFollowing db i d) q
      = if q = i then (followingOf db q).map (fun n => n + d)
        else followingOf db q := by
  have hmap := find?_map_of_pred
    (fun u : UserDoc =>
      if u.uid == i then { u with following := u.following + d } else u)
    (fun x => x.uid == q)
    (fun x => by by_cases h : (x.uid == i) = true <;> simp [h]) db.users
  simp only [followingOf, bumpFollowing]
  rw [hmap]
  cases hfq : db.users.find? (fun x => x.uid == q) with
  | none => by_cases hqi : q = i <;> simp [hqi]
  | some u =>
      have huid : u.uid = q := by
        have := List.find?_some hfq
        simpa using this
      by_cases hqi : q = i
      · subst hqi
        simp [huid]
      · simp [huid, hqi]

lemma followersOf_bumpFollowing (db : DB) (i : Nat) (d : Int) (q : Nat) :
    followersOf (bumpFollowing db i d) q = followersOf db q := by
  have hmap := find?_map_of_pred
    (fun u : UserDoc =>
      if u.uid == i then { u with following := u.following + d } else u)
    (fun x => x.uid == q)
    (fun x => by by_cases h : (x.uid == i) = true <;> simp [h]) db.users
  simp only [followersOf, bumpFollowing]
  rw [hmap]
  cases hfq : db.users.find? (fun x => x.uid == q) with
  | none => simp
  | some u => by_cases h : u.uid = i <;> simp [h]

lemma followingOf_bumpFollowers (db : DB) (i : Nat) (d : Int) (q : Nat) :
    followingOf (bumpFollowers db i d) q = followingOf db q := by
  have hmap := find?_map_of_pred
    (fun u : UserDoc =>
      if u.uid == i then { u with followers := u.followers + d } else u)
    (fun x => x.uid == q)
    (fun x => by by_cases h : (x.uid == i) = true <;> simp [h]) db.users
  simp only [followingOf, bumpFollowers]
  rw [hmap]
  cases hfq : db.users.find? (fun x => x.uid == q) with
  | none => simp
  | some u => by_cases h : u.uid = i <;> simp [h]

lemma userExists_bumpFollowers (db : DB) (i : Nat) (d : Int) (q : Nat) :
    userExists (bumpFollowers db i d) q = userExists db q := by
  simp only [userExists, bumpFollowers, List.any_map]
  refine congrArg _ (funext fun x => ?_)
  by_cases h : x.uid = i <;> simp [h]

lemma userExists_bumpFollowing (db : DB) (i : Nat) (d : Int) (q : Nat) :
    userExists (bumpFollowing db i d) q = userExists db q := by
  simp only [userExists, bumpFollowing, List.any_map]
  refine congrArg _ (funext fun x => ?_)
  by_cases h : x.uid = i <;> simp [h]

end QuickNews

namespace QuickNews

lemma followersOf_withFN (db : DB) (F : List Follow) (n : Nat) (q : Nat) :
    followersOf { db with follows := F, nextId := n } q = followersOf db q := rfl

lemma followingOf_withFN (db : DB) (F : List Follow) (n : Nat) (q : Nat) :
    followingOf { db with follows := F, nextId := n } q = followingOf db q := rfl

lemma userExists_withFN (db : DB) (F : List Follow) (n : Nat) (q : Nat) :
    userExists { db with follows := F, nextId := n } q = userExists db q := rfl

/-- C6: from a state with no Follow(A, B) row, toggleFollow(A, B) increments
B's stats.followers and A's stats.following by one each; running it a second
time finds the created row, deletes it and decrements both counters,
restoring both to their initial values. -/
theorem c6_follow_round_trip (db : DB) (A B : Nat) (nb na : Int)
    (hAB : A ≠ B)
    (hB : followersOf db B = some nb) (hA : followingOf db A = some na)
    (hnone : ∀ f ∈ db.follows, ¬(f.follower == A && f.following == B) = true) :
    followersOf (toggleFollow A B db).db B = some (nb + 1) ∧
    followingOf (toggleFollow A B db).db A = some (na + 1) ∧
    followersOf (toggleFollow A B (toggleFollow A B db).db).db B = some nb ∧
    followingOf (toggleFollow A B (toggleFollow A B db).db).db A = some na := by
  have hBA : (B == A) = false := beq_eq_false_iff_ne.mpr (Ne.symm hAB)
  have hABf : (A == B) = false := beq_eq_false_iff_ne.mpr hAB
  have huB : userExists db B = true := by
    cases hfq : db.users.find? (fun x => x.uid == B) with
    | none => rw [followersOf, hfq] at hB; cases hB
    | some u =>
        have hm := List.mem_of_find?_eq_some hfq
        have hp := List.find?_some hfq
        simp only [userExists, List.any_eq_true]
        exact ⟨u, hm, hp⟩
  have hfind1 : db.follows.find?
      (fun f => f.follower == A && f.following == B) = none :=
    List.find?_eq_none.mpr hnone
  have hany : (db.follows.any fun f => f.follower == A && f.following == B)
      = false := List.any_eq_false.mpr hnone
  have hcr : followCreate db A B = Except.ok { db with
      follows := db.follows ++ [{ fid := db.nextId, follower := A,
                                  following := B, status := "active" }],
      nextId := db.nextId + 1 } := by
    simp [followCreate, hABf, hany]
  have hdb1 : (toggleFollow A B db).db
      = bumpFollowing (bumpFollowers { db with
          follows := db.follows ++ [{ fid := db.nextId, follower := A,
                                      following := B, status := "active" }],
          nextId := db.nextId + 1 } B 1) A 1 := by
    simp [toggleFollow, hBA, huB, hfind1, hcr]
  have hc1 : followersOf (toggleFollow A B db).db B = some (nb + 1) := by
    rw [hdb1, followersOf_bumpFollowing, followersOf_bumpFollowers, if_pos rfl,
      followersOf_withFN, hB]
    rfl
  have hc2 : followingOf (toggleFollow A B db).db A = some (na + 1) := by
    rw [hdb1, followingOf_bumpFollowing, if_pos rfl, followingOf_bumpFollowers,
      followingOf_withFN, hA]
    rfl
  have hfollows1 : (toggleFollow A B db).db.follows
      = db.follows ++ [{ fid := db.nextId, follower := A,
                         following := B, status := "active" }] := by
    rw [hdb1]
    rfl
  have huB1 : userExists (toggleFollow A B db).db B = true := by
    rw [hdb1, userExists_bumpFollowing, userExists_bumpFollowers,
      userExists_withFN]
    exact huB
  have hfind2 : (toggleFollow A B db).db.follows.find?
      (fun f => f.follower == A && f.following == B)
      = some { fid := db.nextId, follower := A,
               following := B, status := "active" } := by
    rw [hfollows1, List.find?_append, hfind1]
    simp
  obtain ⟨X, hX⟩ : ∃ X, (toggleFollow A B db).db = X := ⟨_, rfl⟩
  rw [hX] at huB1 hfind2 hc1 hc2 ⊢
  have hdb2 : (toggleFollow A B X).db
      = bumpFollowing (bumpFollowers { X with
          follows := X.follows.filter
            (fun x => x.fid != db.nextId) } B (-1)) A (-1) := by
    simp [toggleFollow, hBA, huB1, hfind2]
  refine ⟨hc1, hc2, ?_, ?_⟩
  · rw [hdb2, followersOf_bumpFollowing, followersOf_bumpFollowers, if_pos rfl]
    have hred : followersOf { X with
        follows := X.follows.filter (fun x => x.fid != db.nextId) } B
        = followersOf X B := rfl
    rw [hred, hc1]
    simp only [Option.map_some']
    congr 1
    omega
  · rw [hdb2, followingOf_bumpFollowing, if_pos rfl, followingOf_bumpFollowers]
    have hred : followingOf { X with
        follows := X.follows.filter (fun x => x.fid != db.nextId) } A
        = followingOf X A := rfl
    rw [hred, hc2]
    simp only [Option.map_some']
    congr 1
    omega

/-- Witness for C6 on the sample state: user 7 follows then unfollows user 8,
both counters return to 0. -/
theorem c6_witness :
    followersOf (toggleFollow 7 8 db0).db 8 = some (0 + 1) ∧
    followingOf (toggleFollow 7 8 db0).db 7 = some (0 + 1) ∧
    followersOf (toggleFollow 7 8 (toggleFollow 7 8 db0).db).db 8 = some 0 ∧
    followingOf (toggleFollow 7 8 (toggleFollow 7 8 db0).db).db 7 = some 0 :=
  c6_follow_round_trip db0 7 8 0 0 (by decide) (by decide) (by decide)
    (fun f hf => absurd hf (List.not_mem_nil f))

end QuickNews

namespace QuickNews

/-! ### C7: reply-count bookkeeping -/

lemma bmp_cid (p : Nat) (d : Int) (x : Comment) :
    (if x.cid == p then { x with repliesCount := x.repliesCount + d }
     else x).cid = x.cid := by
  by_cases h : x.cid = p <;> simp [h]

lemma find?_map_bmp (l : List Comment) (p q : Nat) (d : Int) :
    (l.map (fun x => if x.cid == p
        then { x with repliesCount := x.repliesCount + d } else x)).find?
      (fun x => x.cid == q)
      = (l.find? (fun x => x.cid == q)).map (fun x => if x.cid == p
          then { x with repliesCount := x.repliesCount + d } else x) :=
  find?_map_of_pred _ _ (fun x => by rw [bmp_cid]) l

lemma map_bmp_of_ne (o : Option Comment) (p q : Nat) (d : Int)
    (hq : ∀ x, o = some x → x.cid = q) (hne : q ≠ p) :
    o.map (fun x => if x.cid == p
        then { x with repliesCount := x.repliesCount + d } else x) = o := by
  cases o with
  | none => rfl
  | some x =>
      have hx := hq x rfl
      simp [Option.map_some', hx, hne]

lemma createReply_facts (u v p : Nat) (db : DB) (P : Comment)
    (hwf : CommentsWF db) (hv : videoExists db v = true)
    (hP : commentFind db p = some P) :
    CommentsWF (createComment u v "Video" "hi" (some p) db).db ∧
    videoExists (createComment u v "Video" "hi" (some p) db).db v = true ∧
    (createComment u v "Video" "hi" (some p) db).db.nextId = db.nextId + 1 ∧
    commentFind (createComment u v "Video" "hi" (some p) db).db p
      = some { P with repliesCount := P.repliesCount + 1 } ∧
    (∀ q, q ≠ p → q ≠ db.nextId →
      commentFind (createComment u v "Video" "hi" (some p) db).db q
        = commentFind db q) ∧
    (∃ c, commentFind (createComment u v "Video" "hi" (some p) db).db db.nextId
        = some c ∧ c.user = u ∧ c.parentComment = some p) := by
  have hpe : commentExists db p = true := by simp [commentExists, hP]
  have hpcid : P.cid = p := by simpa using List.find?_some hP
  have hplt : p < db.nextId := hpcid ▸ hwf P (List.mem_of_find?_eq_some hP)
  have hval : commentValidate "Video" "hi" = Except.ok "hi" := rfl
  have hdb' : (createComment u v "Video" "hi" (some p) db).db
      = bumpReplies { db with
          comments := db.comments ++ [newReply u v p db.nextId],
          nextId := db.nextId + 1 } p 1 := by
    simp [createComment, createCommentWrite, commentCreate, hval, hv, hpe,
      newReply]
  have hold : db.comments.find? (fun x => x.cid == db.nextId) = none := by
    rw [List.find?_eq_none]
    intro x hx hpx
    have := hwf x hx
    simp only [beq_iff_eq] at hpx
    omega
  refine ⟨?_, ?_, ?_, ?_, ?_, ?_⟩
  · rw [hdb']
    intro c hc
    simp only [bumpReplies] at hc
    obtain ⟨x, hx, rfl⟩ := List.mem_map.mp hc
    rcases List.mem_append.mp hx with h1 | h2
    · have := hwf x h1
      rw [bmp_cid]
      exact Nat.lt_succ_of_lt this
    · simp only [List.mem_singleton] at h2
      subst h2
      rw [bmp_cid]
      exact Nat.lt_succ_self _
  · rw [hdb']
    exact hv
  · rw [hdb']
    rfl
  · rw [hdb']
    simp only [commentFind, bumpReplies]
    rw [find?_map_bmp, List.find?_append]
    rw [show db.comments.find? (fun x => x.cid == p) = some P from hP]
    simp [hpcid]
  · intro q hqp hqn
    rw [hdb']
    simp only [commentFind, bumpReplies]
    rw [find?_map_bmp, List.find?_append]
    have hnew : ([newReply u v p db.nextId] : List Comment).find?
        (fun x => x.cid == q) = none := by
      simp [newReply, Ne.symm hqn]
    rw [hnew]
    cases hfq : db.comments.find? (fun x => x.cid == q) with
    | none => simp
    | some c =>
        have hcq : c.cid = q := by simpa using List.find?_some hfq
        simp [Option.or, hcq, hqp]
  · rw [hdb']
    simp only [commentFind, bumpReplies]
    rw [find?_map_bmp, List.find?_append, hold]
    have hplne : db.nextId ≠ p := by omega
    simp [newReply, hplne]

end QuickNews

namespace QuickNews

lemma mkReplies_spec (a : Nat → Nat) (v p : Nat) :
    ∀ (k : Nat) (db : DB) (P : Comment), CommentsWF db →
      videoExists db v = true → commentFind db p = some P →
      CommentsWF (mkReplies a v p k db) ∧
      videoExists (mkReplies a v p k db) v = true ∧
      (mkReplies a v p k db).nextId = db.nextId + k ∧
      commentFind (mkReplies a v p k db) p
        = some { P with repliesCount := P.repliesCount + (k : Int) } ∧
      (∀ q, q ≠ p → q < db.nextId →
        commentFind (mkReplies a v p k db) q = commentFind db q) ∧
      (∀ j, j < k → ∃ c, commentFind (mkReplies a v p k db) (db.nextId + j)
          = some c ∧ c.user = a (db.nextId + j) ∧ c.parentComment = some p) := by
  intro k
  induction k with
  | zero =>
      intro db P hwf hv hP
      refine ⟨hwf, hv, by simp [mkReplies], ?_, ?_, ?_⟩
      · simpa [mkReplies] using hP
      · intro q _ _
        simp [mkReplies]
      · intro j hj
        omega
  | succ k ih =>
      intro db P hwf hv hP
      have hpcid : P.cid = p := by simpa using List.find?_some hP
      have hplt : p < db.nextId := hpcid ▸ hwf P (List.mem_of_find?_eq_some hP)
      obtain ⟨hwf1, hv1, hnext1, hfp1, hpres1, hnew1⟩ :=
        createReply_facts (a db.nextId) v p db P hwf hv hP
      have hstep : mkReplies a v p (k + 1) db
          = mkReplies a v p k (createComment (a db.nextId) v "Video" "hi"
              (some p) db).db := rfl
      obtain ⟨hwfK, hvK, hnextK, hfpK, hpresK, hidsK⟩ :=
        ih (createComment (a db.nextId) v "Video" "hi" (some p) db).db
          { P with repliesCount := P.repliesCount + 1 } hwf1 hv1 hfp1
      refine ⟨?_, ?_, ?_, ?_, ?_, ?_⟩
      · rw [hstep]; exact hwfK
      · rw [hstep]; exact hvK
      · rw [hstep, hnextK, hnext1]; omega
      · rw [hstep, hfpK]
        congr 1
        simp only [Comment.mk.injEq, and_true, true_and]
        push_cast
        ring
      · intro q hqp hqlt
        rw [hstep, hpresK q hqp (by omega), hpres1 q hqp (by omega)]
      · intro j hj
        rcases Nat.eq_zero_or_pos j with hj0 | hjpos
        · subst hj0
          obtain ⟨c, hc, hcu, hcp⟩ := hnew1
          refine ⟨c, ?_, by simpa using hcu, hcp⟩
          rw [hstep, Nat.add_zero]
          rw [hpresK db.nextId (by omega) (by omega)]
          exact hc
        · obtain ⟨j', rfl⟩ : ∃ j', j = j' + 1 := ⟨j - 1, by omega⟩
          obtain ⟨c, hc, hcu, hcp⟩ := hidsK j' (by omega)
          refine ⟨c, ?_, ?_, hcp⟩
          · rw [hstep]
            rw [show db.nextId + (j' + 1)
                = (createComment (a db.nextId) v "Video" "hi"
                    (some p) db).db.nextId + j' from by rw [hnext1]; omega]
            exact hc
          · rw [show db.nextId + (j' + 1)
                = (createComment (a db.nextId) v "Video" "hi"
                    (some p) db).db.nextId + j' from by rw [hnext1]; omega]
            exact hcu

end QuickNews

namespace QuickNews

lemma deleteReply_facts (r u p : Nat) (db : DB) (c P : Comment)
    (hfind : commentFind db r = some c) (hu : c.user = u)
    (hpar : c.parentComment = some p) (hrp : r ≠ p)
    (hP : commentFind db p = some P) (hwf : CommentsWF db) :
    CommentsWF (deleteComment r u db).db ∧
    (deleteComment r u db).db.nextId = db.nextId ∧
    commentFind (deleteComment r u db).db p
      = some { P with repliesCount := P.repliesCount + (-1) } ∧
    (∀ q, q ≠ p → q ≠ r →
      commentFind (deleteComment r u db).db q = commentFind db q) := by
  have hne : (c.user != u) = false := by simp [hu]
  have hpcid : P.cid = p := by simpa using List.find?_some hP
  have hdb' : (deleteComment r u db).db
      = { (bumpReplies db p (-1)) with
          comments := (bumpReplies db p (-1)).comments.filter
            (fun x => x.cid != r) } := by
    simp [deleteComment, hfind, hne, hpar]
  refine ⟨?_, ?_, ?_, ?_⟩
  · rw [hdb']
    intro x hx
    have hx1 := (List.mem_filter.mp hx).1
    simp only [bumpReplies] at hx1
    obtain ⟨y, hy, rfl⟩ := List.mem_map.mp hx1
    rw [bmp_cid]
    exact hwf y hy
  · rw [hdb']
    rfl
  · rw [hdb']
    simp only [commentFind, bumpReplies]
    rw [find?_filter_keep _ _ _ (fun x hx => by
      simp only [beq_iff_eq] at hx
      simp [hx, Ne.symm hrp])]
    rw [find?_map_bmp]
    rw [show db.comments.find? (fun x => x.cid == p) = some P from hP]
    simp [hpcid]
  · intro q hqp hqr
    rw [hdb']
    simp only [commentFind, bumpReplies]
    rw [find?_filter_keep _ _ _ (fun x hx => by
      simp only [beq_iff_eq] at hx
      simp [hx, hqr])]
    rw [find?_map_bmp]
    exact map_bmp_of_ne _ p q (-1)
      (fun x hx => by simpa using List.find?_some hx) hqp

lemma delReplies_spec (a : Nat → Nat) (p : Nat) :
    ∀ (ids : List Nat) (db : DB) (P : Comment), CommentsWF db →
      commentFind db p = some P → ids.Nodup → p ∉ ids →
      (∀ i ∈ ids, ∃ c, commentFind db i = some c ∧ c.user = a i ∧
         c.parentComment = some p) →
      commentFind (delReplies a ids db) p
        = some { P with repliesCount := P.repliesCount - (ids.length : Int) } := by
  intro ids
  induction ids with
  | nil =>
      intro db P _ hP _ _ _
      simpa [delReplies] using hP
  | cons i rest ih =>
      intro db P hwf hP hnd hpni hall
      obtain ⟨c, hc, hcu, hcp⟩ := hall i (by simp)
      have hip : i ≠ p := by
        intro he
        exact hpni (by simp [he])
      obtain ⟨hwf1, _, hfp1, hpres1⟩ :=
        deleteReply_facts i (a i) p db c P hc hcu hcp hip hP hwf
      have hstep : delReplies a (i :: rest) db
          = delReplies a rest (deleteComment i (a i) db).db := rfl
      have hrest : ∀ x ∈ rest, ∃ c', commentFind (deleteComment i (a i) db).db x
          = some c' ∧ c'.user = a x ∧ c'.parentComment = some p := by
        intro x hx
        obtain ⟨cx, hcx, hcxu, hcxp⟩ := hall x (by simp [hx])
        have hxp : x ≠ p := by
          intro he
          rw [he] at hx
          exact hpni (List.mem_cons_of_mem i hx)
        have hxi : x ≠ i := by
          intro he
          rw [he] at hx
          exact (List.nodup_cons.mp hnd).1 hx
        rw [hpres1 x hxp hxi]
        exact ⟨cx, hcx, hcxu, hcxp⟩
      have := ih (deleteComment i (a i) db).db
        { P with repliesCount := P.repliesCount + (-1) } hwf1 hfp1
        (List.nodup_cons.mp hnd).2
        (fun hmem => hpni (by simp [hmem])) hrest
      rw [hstep, this]
      congr 1
      simp only [Comment.mk.injEq, and_true, true_and, List.length_cons]
      push_cast
      ring

end QuickNews

namespace QuickNews

/-- C7: starting from a comment P with repliesCount 0 on an existing video,
creating K replies with parentComment = P via createComment (the reply with
generated id n authored by user a n) and then deleting D of them via
deleteComment — each deletion performed by that reply's author, sequentially
— leaves P.repliesCount = K - D (the deleted replies are those with ids
nextId + j for j ranging over the D distinct indices in js). -/
theorem c7_reply_count (db : DB) (a : Nat → Nat) (v p K : Nat) (P : Comment)
    (js : List Nat) (hwf : CommentsWF db) (hv : videoExists db v = true)
    (hP : commentFind db p = some P) (hr0 : P.repliesCount = 0)
    (hnd : js.Nodup) (hjs : ∀ j ∈ js, j < K) :
    repliesOf (delReplies a (js.map (fun j => db.nextId + j))
        (mkReplies a v p K db)) p = some ((K : Int) - (js.length : Int)) := by
  obtain ⟨hwf1, hv1, hnext1, hP1, hpres1, hids1⟩ :=
    mkReplies_spec a v p K db P hwf hv hP
  have hplt : p < db.nextId := by
    have hm := List.mem_of_find?_eq_some hP
    have hc := List.find?_some hP
    simp only [beq_iff_eq] at hc
    rw [← hc]
    exact hwf P hm
  have hpni : p ∉ js.map (fun j => db.nextId + j) := by
    intro hmem
    obtain ⟨j, hj, hje⟩ := List.mem_map.mp hmem
    omega
  have hndm : (js.map (fun j => db.nextId + j)).Nodup :=
    hnd.map (fun x y hxy => by omega)
  have hall : ∀ i ∈ js.map (fun j => db.nextId + j),
      ∃ c, commentFind (mkReplies a v p K db) i = some c ∧ c.user = a i ∧
        c.parentComment = some p := by
    intro i hi
    obtain ⟨j, hj, hje⟩ := List.mem_map.mp hi
    subst hje
    exact hids1 j (hjs j hj)
  have hdel := delReplies_spec a p (js.map (fun j => db.nextId + j))
    (mkReplies a v p K db) { P with repliesCount := P.repliesCount + (K : Int) }
    hwf1 hP1 hndm hpni hall
  rw [repliesOf, hdel]
  simp only [Option.map_some', List.length_map]
  congr 1
  simp [hr0]

/-- Witness for C7 on the sample state: K = 3 replies to comment 2, deleting
the two with indices 0 and 2, leaves repliesCount = 1. -/
theorem c7_witness :
    repliesOf (delReplies (fun _ => 9) ([0, 2].map (fun j => dbC.nextId + j))
        (mkReplies (fun _ => 9) 1 2 3 dbC)) 2
      = some ((3 : Int) - (([0, 2] : List Nat).length : Int)) :=
  c7_reply_count dbC (fun _ => 9) 1 2 3
    { cid := 2, user := 7, content := 1, contentType := "Video",
      text := "hello", parentComment := none, likesCount := 0,
      repliesCount := 0, isEdited := false, active := true }
    [0, 2]
    (by intro c hc
        simp only [dbC, db0, List.mem_singleton] at hc
        subst hc
        decide)
    (by decide) (by decide) rfl (by decide) (by decide)

end QuickNews
